import Mathlib

/-!
Verification of the weather-report pipeline (hourly observation variant
`hourly_auto_send.py` and weekly forecast variant `weekly_auto_send.py`).

The development shallowly embeds the data-normalisation core of the two
scripts: JSON values, the sentinel filter, the multi-path field resolvers,
the time normaliser `convert_to_local_time`, the row builders of
`parse_weather_data`, the region grouping/sorting stage, the MD5-based
`safe_id`, and the fatal-error control flow of `main`.

Modelling conventions:
* Python strings are manipulated as `List Char` (Python compares and
  iterates code points, which coincides with `Char`).
* JSON scalars reaching the parsers are `JVal` values; `Option` results
  model Python exceptions escaping the parse (`none` = the run raises).
* Machine-independent behaviour only: `datetime.fromisoformat` is
  embedded as an executable ISO-8601 parser for the grammar CPython
  accepts, and `astimezone` of a naive datetime depends on the host time
  zone, which is passed explicitly as `sysOff` (seconds east of UTC).
-/

/-! ## Python string primitives over `List Char` -/

/-- Membership test for a character, modelling Python's `'T' in s`. -/
def hasChar (c : Char) (l : List Char) : Bool :=
  l.any (fun a => a = c)

/-- Models `str.replace('Z', '+00:00')`: for a one-character pattern,
Python replaces every occurrence, which is this per-character expansion. -/
def pyReplaceZ (l : List Char) : List Char :=
  l.flatMap (fun c => if c = 'Z' then ['+', '0', '0', ':', '0', '0'] else [c])

/-- Models Python `str.split(sep)` for a one-character separator:
splits at every occurrence, producing `n+1` parts. -/
def splitChar (c : Char) : List Char → List (List Char)
  | [] => [[]]
  | a :: rest =>
    let ps := splitChar c rest
    if a = c then [] :: ps
    else
      match ps with
      | [] => [[a]]
      | p :: pr => (a :: p) :: pr

/-- The text after the first separator: Python's `s.split('T')[1]`
(the piece between the first and second `'T'`), empty if absent. -/
def afterSep (c : Char) (l : List Char) : List Char :=
  (splitChar c l).getD 1 []

/-- Python's lexicographic string order (code-point by code-point). -/
def charLe : List Char → List Char → Bool
  | [], _ => true
  | _, [] => false
  | x :: xs, y :: ys =>
    if x.toNat < y.toNat then true
    else if y.toNat < x.toNat then false
    else charLe xs ys

/-- `a <= b` on Python strings. -/
def strLeB (a b : String) : Bool := charLe a.data b.data

/-! ## JSON values -/

/-- A JSON value as the two scripts see it: `null`, a string, an array or
an object (an insertion-ordered association list, as in Python dicts).
Numeric payloads do not occur in the CWA fields the scripts read; the
sentinel comparisons in the source are string comparisons. -/
inductive JVal where
  | jnull : JVal
  | jstr : String → JVal
  | jarr : List JVal → JVal
  | jobj : List (String × JVal) → JVal

/-- A JSON object body. -/
abbrev Dict := List (String × JVal)

/-- Python `dict.get(k, dflt)`. -/
def dictGet (d : Dict) (k : String) (dflt : JVal) : JVal :=
  (d.lookup k).getD dflt

/-- Python truthiness of the JSON values above: `None`, `""`, `[]` and
an empty dict are falsy, everything else truthy. -/
def pyTruthy : JVal → Bool
  | .jnull => false
  | .jstr s => !(s = "")
  | .jarr l => !l.isEmpty
  | .jobj l => !l.isEmpty

/-- Structural equality, modelling Python `==` on these values.
(Python dict equality ignores key order; the scripts only ever compare
scalar timestamp values, where this coincides.) -/
def jbeq : JVal → JVal → Bool
  | .jnull, .jnull => true
  | .jstr a, .jstr b => a = b
  | .jarr a, .jarr b => jbeqArr a b
  | .jobj a, .jobj b => jbeqObj a b
  | _, _ => false
where
  jbeqArr : List JVal → List JVal → Bool
    | [], [] => true
    | a :: as, b :: bs => jbeq a b && jbeqArr as bs
    | _, _ => false
  jbeqObj : List (String × JVal) → List (String × JVal) → Bool
    | [], [] => true
    | (k1, v1) :: as, (k2, v2) :: bs => k1 = k2 && jbeq v1 v2 && jbeqObj as bs
    | _, _ => false

/-- Single quote, bracket and brace characters, used by the `repr` forms. -/
def squoChar : Char := Char.ofNat 39
def lbrackChar : Char := Char.ofNat 91
def rbrackChar : Char := Char.ofNat 93
def lbraceChar : Char := Char.ofNat 123
def rbraceChar : Char := Char.ofNat 125

mutual
/-- Python `repr` of a JSON value, as a character list ('{...}' for
dicts, '[...]' for lists, quoted strings; escaping is not modelled as it
never affects the comparisons the scripts perform). -/
def reprChars : JVal → List Char
  | .jnull => ['N', 'o', 'n', 'e']
  | .jstr s => squoChar :: s.data ++ [squoChar]
  | .jarr l => lbrackChar :: (reprCharsArr l ++ [rbrackChar])
  | .jobj l => lbraceChar :: (reprCharsObj l ++ [rbraceChar])

/-- Comma-separated `repr`s of array elements. -/
def reprCharsArr : List JVal → List Char
  | [] => []
  | [v] => reprChars v
  | v :: rest => reprChars v ++ [',', ' '] ++ reprCharsArr rest

/-- Comma-separated `'key': repr` pairs of an object. -/
def reprCharsObj : List (String × JVal) → List Char
  | [] => []
  | [(k, v)] => squoChar :: k.data ++ [squoChar, ':', ' '] ++ reprChars v
  | (k, v) :: rest =>
    squoChar :: k.data ++ [squoChar, ':', ' '] ++ reprChars v ++ [',', ' '] ++ reprCharsObj rest
end

/-- Python `str()` of a JSON value (identity on strings, `"None"` for
`None`, `repr` otherwise). -/
def pyStrChars : JVal → List Char
  | .jstr s => s.data
  | .jnull => ['N', 'o', 'n', 'e']
  | v => reprChars v

/-- `str()` packaged as a `String`. -/
def pyStr (v : JVal) : String := String.mk (pyStrChars v)

/-- Membership of a string in a list of strings (Python `in` on a tuple
of string literals). -/
def inStrs (s : String) (l : List String) : Bool :=
  l.any (fun t => s = t)

/-! ## Calendar arithmetic (proleptic Gregorian, Howard Hinnant's
algorithms with floor division) -/

/-- Days from civil date to days since 1970-01-01. -/
def daysFromCivil (y m d : Nat) : Int :=
  let yi : Int := y
  let mi : Int := m
  let di : Int := d
  let yy := if mi ≤ 2 then yi - 1 else yi
  let era := Int.ediv yy 400
  let yoe := yy - era * 400
  let mp := if mi ≤ 2 then mi + 9 else mi - 3
  let doy := Int.ediv (153 * mp + 2) 5 + di - 1
  let doe := yoe * 365 + Int.ediv yoe 4 - Int.ediv yoe 100 + doy
  era * 146097 + doe - 719468

/-- Days since 1970-01-01 back to a civil date (year, month, day). -/
def civilFromDays (z0 : Int) : Int × Nat × Nat :=
  let z := z0 + 719468
  let era := Int.ediv z 146097
  let doe := z - era * 146097
  let yoe := Int.ediv (doe - Int.ediv doe 1460 + Int.ediv doe 36524 - Int.ediv doe 146096) 365
  let y := yoe + era * 400
  let doy := doe - (365 * yoe + Int.ediv yoe 4 - Int.ediv yoe 100)
  let mp := Int.ediv (5 * doy + 2) 153
  let d := (doy - Int.ediv (153 * mp + 2) 5 + 1).toNat
  let m := (if mp < 10 then mp + 3 else mp - 9).toNat
  (if mp < 10 then y else y + 1, m, d)

/-- Gregorian leap year. -/
def isLeapYear (y : Nat) : Bool :=
  (y % 4 = 0 && !(y % 100 = 0)) || y % 400 = 0

/-- Length of a month, for the validation `fromisoformat` performs. -/
def daysInMonth (y m : Nat) : Nat :=
  if m = 2 then (if isLeapYear y then 29 else 28)
  else if m = 4 || m = 6 || m = 9 || m = 11 then 30
  else 31

/-! ## `datetime.fromisoformat` and `astimezone`/`strftime` -/

/-- The result of a successful `datetime.fromisoformat`: a civil
date-time with an optional fixed UTC offset in seconds (absent for a
naive datetime). -/
structure PyDT where
  year : Nat
  month : Nat
  day : Nat
  hour : Nat
  minute : Nat
  second : Nat
  tzoff : Option Int
deriving DecidableEq

/-- Two ASCII digits to a number. -/
def twoDigits (a b : Char) : Option Nat :=
  if a.isDigit && b.isDigit then some ((a.toNat - 48) * 10 + (b.toNat - 48))
  else none

/-- Parse `HH[:MM[:SS[.fff...]]]` with CPython's range validation. -/
def parseHMS : List Char → Option (Nat × Nat × Nat)
  | [h1, h2] => do
    let h ← twoDigits h1 h2
    if h ≤ 23 then some (h, 0, 0) else none
  | [h1, h2, ':', m1, m2] => do
    let h ← twoDigits h1 h2
    let m ← twoDigits m1 m2
    if h ≤ 23 && m ≤ 59 then some (h, m, 0) else none
  | [h1, h2, ':', m1, m2, ':', s1, s2] => do
    let h ← twoDigits h1 h2
    let m ← twoDigits m1 m2
    let s ← twoDigits s1 s2
    if h ≤ 23 && m ≤ 59 && s ≤ 59 then some (h, m, s) else none
  | h1 :: h2 :: ':' :: m1 :: m2 :: ':' :: s1 :: s2 :: '.' :: frac => do
    let h ← twoDigits h1 h2
    let m ← twoDigits m1 m2
    let s ← twoDigits s1 s2
    if h ≤ 23 && m ≤ 59 && s ≤ 59 && 1 ≤ frac.length && frac.length ≤ 6
        && frac.all Char.isDigit then
      some (h, m, s)
    else none
  | _ => none

/-- Parse a UTC offset `HH:MM[:SS]` (seconds east, before the sign). -/
def parseTZBody : List Char → Option Int
  | [h1, h2, ':', m1, m2] => do
    let h ← twoDigits h1 h2
    let m ← twoDigits m1 m2
    if h ≤ 23 && m ≤ 59 then some (h * 3600 + m * 60) else none
  | [h1, h2, ':', m1, m2, ':', s1, s2] => do
    let h ← twoDigits h1 h2
    let m ← twoDigits m1 m2
    let s ← twoDigits s1 s2
    if h ≤ 23 && m ≤ 59 && s ≤ 59 then some (h * 3600 + m * 60 + s) else none
  | _ => none

/-- Parse the time-of-day part including an optional offset; CPython
locates the first `'-'` (else the first `'+'`) as the offset marker. -/
def parseTimePart (cs : List Char) : Option ((Nat × Nat × Nat) × Option Int) :=
  match cs.findIdx? (fun c => c = '-') with
  | some i => do
    let t ← parseHMS (cs.take i)
    let off ← parseTZBody (cs.drop (i + 1))
    some (t, some (-off))
  | none =>
    match cs.findIdx? (fun c => c = '+') with
    | some i => do
      let t ← parseHMS (cs.take i)
      let off ← parseTZBody (cs.drop (i + 1))
      some (t, some off)
    | none => (parseHMS cs).map (fun t => (t, none))

/-- `datetime.fromisoformat` on the character list: `YYYY-MM-DD`, an
arbitrary one-character separator, then the validated time part. -/
def pyFromIso : List Char → Option PyDT
  | y1 :: y2 :: y3 :: y4 :: '-' :: mo1 :: mo2 :: '-' :: d1 :: d2 :: rest =>
    if [y1, y2, y3, y4, mo1, mo2, d1, d2].all Char.isDigit then
      let y := ((y1.toNat - 48) * 10 + (y2.toNat - 48)) * 100
        + (y3.toNat - 48) * 10 + (y4.toNat - 48)
      let mo := (mo1.toNat - 48) * 10 + (mo2.toNat - 48)
      let da := (d1.toNat - 48) * 10 + (d2.toNat - 48)
      if 1 ≤ y && 1 ≤ mo && mo ≤ 12 && 1 ≤ da && da ≤ daysInMonth y mo then
        match rest with
        | [] => some ⟨y, mo, da, 0, 0, 0, none⟩
        | _sep :: tpart =>
          (parseTimePart tpart).map (fun p => ⟨y, mo, da, p.1.1, p.1.2.1, p.1.2.2, p.2⟩)
      else none
    else none
  | _ => none

/-- Zero-padded two-digit decimal, as `strftime` prints fields. -/
def pad2c (n : Nat) : List Char :=
  [Char.ofNat (48 + n / 10 % 10), Char.ofNat (48 + n % 10)]

/-- `dt.astimezone(timezone(timedelta(hours=8))).strftime("%m/%d %H:%M")`:
shift to UTC+8 (a naive datetime is interpreted in the host zone
`sysOff`, seconds east of UTC) and print month/day hour:minute. -/
def formatTW (sysOff : Int) (dt : PyDT) : String :=
  let src : Int := dt.tzoff.getD sysOff
  let total : Int :=
    daysFromCivil dt.year dt.month dt.day * 86400
      + dt.hour * 3600 + dt.minute * 60 + dt.second - src + 28800
  let days := Int.ediv total 86400
  let rem := (total - days * 86400).toNat
  let c := civilFromDays days
  String.mk (pad2c c.2.1 ++ ['/'] ++ pad2c c.2.2 ++ [' ']
    ++ pad2c (rem / 3600) ++ [':'] ++ pad2c (rem % 3600 / 60))

/-! ## UTF-8 and MD5 (`hashlib.md5(name.encode('utf-8')).hexdigest()`) -/

/-- UTF-8 encoding of one code point (1 to 4 bytes, each < 256). -/
def utf8Char (c : Char) : List Nat :=
  let n := c.toNat
  if n < 128 then [n]
  else if n < 2048 then [192 + n / 64, 128 + n % 64]
  else if n < 65536 then [224 + n / 4096, 128 + n / 64 % 64, 128 + n % 64]
  else [240 + n / 262144, 128 + n / 4096 % 64, 128 + n / 64 % 64, 128 + n % 64]

/-- `str.encode('utf-8')` as a byte list. -/
def utf8Bytes (s : String) : List Nat := s.data.flatMap utf8Char

/-- Truncation to 32 bits. -/
def u32 (n : Nat) : Nat := n % 4294967296

/-- 32-bit left rotation (argument below `2^32`). -/
def rotl32 (x s : Nat) : Nat := u32 (x * 2 ^ s) ||| x / 2 ^ (32 - s)

/-- 32-bit complement. -/
def mnot (x : Nat) : Nat := Nat.xor x 4294967295

/-- The MD5 sine-derived round constants. -/
def md5K : List Nat :=
  [0xd76aa478, 0xe8c7b756, 0x242070db, 0xc1bdceee,
   0xf57c0faf, 0x4787c62a, 0xa8304613, 0xfd469501,
   0x698098d8, 0x8b44f7af, 0xffff5bb1, 0x895cd7be,
   0x6b901122, 0xfd987193, 0xa679438e, 0x49b40821,
   0xf61e2562, 0xc040b340, 0x265e5a51, 0xe9b6c7aa,
   0xd62f105d, 0x02441453, 0xd8a1e681, 0xe7d3fbc8,
   0x21e1cde6, 0xc33707d6, 0xf4d50d87, 0x455a14ed,
   0xa9e3e905, 0xfcefa3f8, 0x676f02d9, 0x8d2a4c8a,
   0xfffa3942, 0x8771f681, 0x6d9d6122, 0xfde5380c,
   0xa4beea44, 0x4bdecfa9, 0xf6bb4b60, 0xbebfbc70,
   0x289b7ec6, 0xeaa127fa, 0xd4ef3085, 0x04881d05,
   0xd9d4d039, 0xe6db99e5, 0x1fa27cf8, 0xc4ac5665,
   0xf4292244, 0x432aff97, 0xab9423a7, 0xfc93a039,
   0x655b59c3, 0x8f0ccc92, 0xffeff47d, 0x85845dd1,
   0x6fa87e4f, 0xfe2ce6e0, 0xa3014314, 0x4e0811a1,
   0xf7537e82, 0xbd3af235, 0x2ad7d2bb, 0xeb86d391]

/-- The MD5 per-round shift amounts. -/
def md5S : List Nat :=
  [7, 12, 17, 22, 7, 12, 17, 22, 7, 12, 17, 22, 7, 12, 17, 22,
   5, 9, 14, 20, 5, 9, 14, 20, 5, 9, 14, 20, 5, 9, 14, 20,
   4, 11, 16, 23, 4, 11, 16, 23, 4, 11, 16, 23, 4, 11, 16, 23,
   6, 10, 15, 21, 6, 10, 15, 21, 6, 10, 15, 21, 6, 10, 15, 21]

/-- `k` little-endian bytes of `n`. -/
def leBytes (n k : Nat) : List Nat :=
  (List.range k).map (fun i => n / 256 ^ i % 256)

/-- MD5 padding: `0x80`, zeros to 56 mod 64, 8-byte little-endian bit length. -/
def md5Pad (msg : List Nat) : List Nat :=
  let r := (msg.length + 1) % 64
  msg ++ [128] ++ List.replicate ((120 - r) % 64) 0
    ++ leBytes (8 * msg.length % 2 ^ 64) 8

/-- Split a byte list into 64-byte chunks (structural recursion on a
fuel bounded by the length, so that the kernel can evaluate it). -/
def chunksAux : Nat → List Nat → List (List Nat)
  | 0, _ => []
  | _, [] => []
  | fuel + 1, a :: t => (a :: t).take 64 :: chunksAux fuel ((a :: t).drop 64)

/-- Split a byte list into 64-byte chunks. -/
def chunks64 (l : List Nat) : List (List Nat) := chunksAux l.length l

/-- The `g`-th little-endian 32-bit word of a chunk. -/
def md5Word (chunk : List Nat) (g : Nat) : Nat :=
  chunk.getD (4 * g) 0 + 256 * chunk.getD (4 * g + 1) 0
    + 65536 * chunk.getD (4 * g + 2) 0 + 16777216 * chunk.getD (4 * g + 3) 0

/-- One MD5 round on the state `(A, B, C, D)`. -/
def md5Round (M : Nat → Nat) (st : Nat × Nat × Nat × Nat) (i : Nat) :
    Nat × Nat × Nat × Nat :=
  let A := st.1
  let B := st.2.1
  let C := st.2.2.1
  let D := st.2.2.2
  let FG :=
    if i < 16 then ((B &&& C) ||| (mnot B &&& D), i)
    else if i < 32 then ((D &&& B) ||| (mnot D &&& C), (5 * i + 1) % 16)
    else if i < 48 then (Nat.xor (Nat.xor B C) D, (3 * i + 5) % 16)
    else (Nat.xor C (B ||| mnot D), 7 * i % 16)
  let F2 := u32 (FG.1 + A + md5K.getD i 0 + M FG.2)
  (D, u32 (B + rotl32 F2 (md5S.getD i 0)), B, C)

/-- Process one 64-byte chunk. -/
def md5Chunk (st : Nat × Nat × Nat × Nat) (chunk : List Nat) :
    Nat × Nat × Nat × Nat :=
  let r := (List.range 64).foldl (md5Round (md5Word chunk)) st
  (u32 (st.1 + r.1), u32 (st.2.1 + r.2.1), u32 (st.2.2.1 + r.2.2.1),
   u32 (st.2.2.2 + r.2.2.2))

/-- The hexadecimal digit characters. -/
def hexDigitChars : List Char := "0123456789abcdef".data

/-- Lowercase hex of one byte. -/
def byteHex (b : Nat) : List Char :=
  [hexDigitChars.getD (b / 16 % 16) '0', hexDigitChars.getD (b % 16) '0']

/-- `hashlib.md5(msg).hexdigest()` as a character list (32 hex digits). -/
def md5HexChars (msg : List Nat) : List Char :=
  let st := (chunks64 (md5Pad msg)).foldl md5Chunk
    (0x67452301, 0xefcdab89, 0x98badcfe, 0x10325476)
  (leBytes st.1 4 ++ leBytes st.2.1 4 ++ leBytes st.2.2.1 4 ++ leBytes st.2.2.2 4).flatMap byteHex

/-! ## Generic grouping stage (shared shape of lines 205-217 of
`hourly_auto_send.py` and 119-130 of `weekly_auto_send.py`) -/

/-- `grouped_data.setdefault(k, []).append(r)`: append `r` to the group
keyed `k`, creating the group at the end on first encounter (Python
dicts preserve insertion order). -/
def addToGroups {α : Type} (k : String) (r : α) :
    List (String × List α) → List (String × List α)
  | [] => [(k, [r])]
  | (q, l) :: rest =>
    if q = k then (q, l ++ [r]) :: rest else (q, l) :: addToGroups k r rest

/-- The grouping loop `for row in rows: grouped.setdefault(key).append`. -/
def groupRows {α : Type} (key : α → String) (rows : List α) :
    List (String × List α) :=
  rows.foldl (fun acc r => addToGroups (key r) r acc) []

/-- `if key not in id_map: id_map[key] = ids(key)` folded over the rows. -/
def idMapBuild {α : Type} (ids : String → String) (key : α → String)
    (rows : List α) : List (String × String) :=
  rows.foldl
    (fun m r => if (m.lookup (key r)).isSome then m else m ++ [(key r, ids (key r))])
    []

/-- Keys in first-seen order (specification of `idMapBuild`'s domain). -/
def firstSeen (ks : List String) : List String :=
  ks.foldl (fun acc k => if k ∈ acc then acc else acc ++ [k]) []

/-- Stable insertion keeping the new element before later equal keys,
matching the stability of Python's `list.sort`. -/
def ordInsert {α : Type} (le : α → α → Bool) (a : α) : List α → List α
  | [] => [a]
  | b :: l => if le a b then a :: b :: l else b :: ordInsert le a l

/-- Stable insertion sort, modelling `list.sort(key=..., reverse=...)`
through the comparator `le` (any stable sort produces this output). -/
def insSort {α : Type} (le : α → α → Bool) : List α → List α
  | [] => []
  | a :: l => ordInsert le a (insSort le l)

/-- `for items in grouped.values(): items.sort(...)`. -/
def sortGroups {α : Type} (le : α → α → Bool) (g : List (String × List α)) :
    List (String × List α) :=
  g.map (fun p => (p.1, insSort le p.2))

/-! ## Hourly observation variant (`hourly_auto_send.py`) -/

namespace Hourly

/-- The sentinel tuple `("-99", "-99.0", "-999", "NA", "X", "")` used by
`get_value` and the gust path. -/
def coreSentinels : List String := ["-99", "-99.0", "-999", "NA", "X", ""]

/-- The extended tuple used on the `Now.Precipitation` path
(additionally `"-98"`). -/
def precipSentinels : List String :=
  ["-99", "-99.0", "-999", "NA", "X", "", "-98"]

/-- `val in ("-99", "-99.0", "-999", "NA", "X", "")`: only a string can
equal a member of the tuple. -/
def isSentinelCore (v : JVal) : Bool :=
  match v with
  | .jstr s => inStrs s coreSentinels
  | _ => false

/-- Membership in the precipitation tuple. -/
def isSentinelPrecip (v : JVal) : Bool :=
  match v with
  | .jstr s => inStrs s precipSentinels
  | _ => false

/-- `precip == "T"`. -/
def isTStr (v : JVal) : Bool :=
  match v with
  | .jstr s => s = "T"
  | _ => false

/-- `get_value(key)` from `parse_weather_data`: fetch from the element
dict (default `""`), unwrap a dict's `value` key, collapse sentinels to
`""`, else `str(val)`. -/
def get_value (elements : Dict) (key : String) : String :=
  let v0 := dictGet elements key (.jstr "")
  let v := match v0 with
    | .jobj d => dictGet d "value" (.jstr "")
    | x => x
  if isSentinelCore v then "" else pyStr v

/-- Gust path 1: `GustInfo.PeakGustSpeed` when `GustInfo` is a dict and
the value is truthy and not a sentinel. -/
def gustNested (elements : Dict) : String :=
  match dictGet elements "GustInfo" .jnull with
  | .jobj gi =>
    let gust := dictGet gi "PeakGustSpeed" (.jstr "")
    if pyTruthy gust && !isSentinelCore gust then pyStr gust else ""
  | _ => ""

/-- The gust fallback chain: `GustInfo.PeakGustSpeed`, then `Gust`,
then `GUST` (lines 141-153). -/
def gust_value (elements : Dict) : String :=
  let g1 := gustNested elements
  if g1 = "" then
    let g2 := get_value elements "Gust"
    if g2 = "" then get_value elements "GUST" else g2
  else g1

/-- Precipitation path 1: `Now.Precipitation` when `Now` is a dict; the
trace literal `"T"` becomes `"雨跡"`. -/
def rainNested (elements : Dict) : String :=
  match dictGet elements "Now" .jnull with
  | .jobj nowd =>
    let precip := dictGet nowd "Precipitation" (.jstr "")
    if pyTruthy precip && !isSentinelPrecip precip then
      if isTStr precip then "雨跡" else pyStr precip
    else ""
  | _ => ""

/-- The precipitation fallback chain: `Now.Precipitation`, then
`Precipitation` (with the `"T"` translation), then `Rainfall`, then
`RAIN` (lines 155-178). -/
def rainfall_value (elements : Dict) : String :=
  let r1 := rainNested elements
  if r1 = "" then
    let p := get_value elements "Precipitation"
    let r2 := if p = "" then "" else if p = "T" then "雨跡" else p
    if r2 = "" then
      let r3 := get_value elements "Rainfall"
      if r3 = "" then get_value elements "RAIN" else r3
    else r2
  else r1

/-- `safe_id(name)`: `"station-"` plus the first 8 hex digits of the
MD5 of the UTF-8 encoded name. -/
def safe_id (name : String) : String :=
  "station-" ++ String.mk ((md5HexChars (utf8Bytes name)).take 8)

/-- `datetime_str`: `ObsTime["DateTime"]` when `ObsTime` is a dict,
else `""` (line 125). -/
def obsDateTimeVal (st : Dict) : JVal :=
  match dictGet st "ObsTime" (.jobj []) with
  | .jobj d => dictGet d "DateTime" (.jstr "")
  | _ => .jstr ""

/-- `convert_to_local_time` (lines 54-64): empty and `'T'`-free inputs
pass through; otherwise `fromisoformat` after replacing `'Z'`, and on
failure the first five characters after the first `'T'`. -/
def convert_to_local_time (sysOff : Int) (s : String) : String :=
  if s = "" then ""
  else if hasChar 'T' s.data = false then s
  else
    match pyFromIso (pyReplaceZ s.data) with
    | some dt => formatTW sysOff dt
    | none =>
      if hasChar 'T' s.data then String.mk ((afterSep 'T' s.data).take 5) else ""

/-- `convert_to_local_time(datetime_str)` on the raw JSON value of
`DateTime`. A falsy value (`None`, `""`, `[]`, `{}`) yields `""`; a
string goes through the normaliser; a non-empty list or dict without
`'T'` (no element equal to `"T"`, no key `"T"`) fails the
`'T' not in utc_time_str` test (element/key membership in Python) and is
returned unchanged; with `'T'` present the `try` body raises
`AttributeError` on `.replace` and the fallback `.split` raises again,
escaping the handler (`none`). -/
def localTimeOf (sysOff : Int) : JVal → Option JVal
  | .jstr s => some (.jstr (convert_to_local_time sysOff s))
  | .jnull => some (.jstr "")
  | .jarr l =>
    if l.isEmpty then some (.jstr "")
    else if l.any (fun x => jbeq x (.jstr "T")) then none
    else some (.jarr l)
  | .jobj d =>
    if d.isEmpty then some (.jstr "")
    else if (d.lookup "T").isSome then none
    else some (.jobj d)

/-- One observation row exactly as the source builds it (the dict of
lines 180-193; `stationName` is `站名`, `time` is `時間`, `dateTime`
the raw `DateTime` value). The `時間` value `local_time or "無資料"`
is a string for every scalar or empty-container `DateTime`, and the
pass-through container itself otherwise. -/
structure RawRow where
  stationName : JVal
  time : JVal
  dateTime : JVal
  countyName : String
  airPressure : String
  airTemperature : String
  windDirection : String
  windSpeed : String
  gust : String
  rainfall : String
  relativeHumidity : String
  weather : String

/-- One normalised observation row with a string display time, the form
every real payload produces and the form the grouping stage sorts on
(`stationName` is `站名`, `time` is `時間`, `dateTime` the raw value). -/
structure HRow where
  stationName : JVal
  time : String
  dateTime : JVal
  countyName : String
  airPressure : String
  airTemperature : String
  windDirection : String
  windSpeed : String
  gust : String
  rainfall : String
  relativeHumidity : String
  weather : String

/-- Build the row for one station dict. `none` models the runs on which
the source raises and therefore emits nothing: a non-dict `GeoInfo` or
`WeatherElement` (`AttributeError` on `.get`), a `DateTime` container
holding `'T'` (see `localTimeOf`), or a non-string `CountyName` (the row
is built, but every such run raises in `safe_id`/dict keying before
`parse_weather_data` returns, so the row is never emitted). Every other
station yields its row, with `時間 = local_time or "無資料"`. -/
def buildRow (sysOff : Int) (st : Dict) : Option RawRow :=
  match dictGet st "GeoInfo" (.jobj []) with
  | .jobj geo =>
    match dictGet geo "CountyName" (.jstr "未知縣市") with
    | .jstr county =>
      match dictGet st "WeatherElement" (.jobj []) with
      | .jobj el =>
        match localTimeOf sysOff (obsDateTimeVal st) with
        | some lt =>
          some ⟨dictGet st "StationName" (.jstr ""),
                if pyTruthy lt then lt else .jstr "無資料",
                obsDateTimeVal st,
                county,
                get_value el "AirPressure",
                get_value el "AirTemperature",
                get_value el "WindDirection",
                get_value el "WindSpeed",
                gust_value el,
                rainfall_value el,
                get_value el "RelativeHumidity",
                get_value el "Weather"⟩
        | none => none
      | _ => none
    | _ => none
  | _ => none

/-- Project a built row onto the string-keyed row type of the grouping
stage: defined exactly when the `時間` value is a string, which holds
for every payload whose `DateTime` values are scalars or empty
containers. A non-string `時間` reaches `items.sort` as a raw container
sort key: such a run either raises `TypeError` in the comparisons or
returns a group keyed by a non-string, and the string-keyed grouping
model does not represent those runs (`none`). -/
def toRow (r : RawRow) : Option HRow :=
  match r.time with
  | .jstr s =>
    some ⟨r.stationName, s, r.dateTime, r.countyName, r.airPressure,
          r.airTemperature, r.windDirection, r.windSpeed, r.gust,
          r.rainfall, r.relativeHumidity, r.weather⟩
  | _ => none

/-- Descending comparator on the display time (`reverse=True`). -/
def rowLe (a b : HRow) : Bool := strLeB b.time a.time

/-- `parse_weather_data` after the debug logging: build one row per
station, group by `CountyName`, build `id_map`, sort each group by
`時間` descending. The statistics f-strings divide by the station count
(line 202), so an empty station list raises `ZeroDivisionError`
(`none`); the grouping stage is modelled over string display times, see
`toRow`. -/
def parse_weather_data (sysOff : Int) (stations : List JVal) :
    Option (List (String × List HRow) × List (String × String)) := do
  let raws ← stations.mapM
    (fun st => match st with | .jobj d => buildRow sysOff d | _ => none)
  if raws.isEmpty then none
  else do
    let rows ← raws.mapM toRow
    some (sortGroups rowLe (groupRows (fun r => r.countyName) rows),
          idMapBuild safe_id (fun r => r.countyName) rows)

end Hourly

/-! ## Weekly forecast variant (`weekly_auto_send.py`) -/

namespace Weekly

/-- `convert_to_local_time` (lines 43-51): like the hourly one but with
no pass-through branch for `'T'`-free input — every non-empty string is
handed to `fromisoformat`, and the bare `except` falls back to the text
after the first `'T'` (first five characters) or `""`. -/
def convert_to_local_time (sysOff : Int) (s : String) : String :=
  if s = "" then ""
  else
    match pyFromIso (pyReplaceZ s.data) with
    | some dt => formatTW sysOff dt
    | none =>
      if hasChar 'T' s.data then String.mk ((afterSep 'T' s.data).take 5) else ""

/-- `safe_id(name)`: `"chart-"` plus the first 8 hex digits of the MD5
of the UTF-8 encoded name. -/
def safe_id (name : String) : String :=
  "chart-" ++ String.mk ((md5HexChars (utf8Bytes name)).take 8)

/-- Python iteration over a JSON value: a list yields its elements, a
string its characters, a dict its keys; `None` is not iterable (the
source would raise `TypeError`). -/
def pyIterList : JVal → Option (List JVal)
  | .jarr l => some l
  | .jstr s => some (s.data.map (fun c => .jstr (String.mk [c])))
  | .jobj d => some (d.map (fun p => .jstr p.1))
  | .jnull => none

/-- Only hashable values can key the `elements` dict comprehension;
a list- or dict-valued `ElementName` raises `TypeError`. -/
def elemKeyOk : JVal → Bool
  | .jstr _ => true
  | .jnull => true
  | _ => false

/-- Dict insertion with replacement (`{e["ElementName"]: e for e in ...}`,
later entries overwrite earlier ones). -/
def insertElem (m : List (JVal × Dict)) (k : JVal) (v : Dict) :
    List (JVal × Dict) :=
  if m.any (fun p => jbeq p.1 k) then
    m.map (fun p => if jbeq p.1 k then (p.1, v) else p)
  else m ++ [(k, v)]

/-- `elements = {e["ElementName"]: e for e in loc.get("WeatherElement", [])}`;
`none` when an entry is not a dict, lacks `ElementName`, or has an
unhashable name. -/
def buildElems (l : List JVal) : Option (List (JVal × Dict)) :=
  l.foldlM
    (fun m e =>
      match e with
      | .jobj d =>
        match d.lookup "ElementName" with
        | some k => if elemKeyOk k then some (insertElem m k d) else none
        | none => none
      | _ => none)
    []

/-- `elements.get(name)` for a string name. -/
def elemsGet (m : List (JVal × Dict)) (k : String) : Option Dict :=
  (m.find? (fun p => jbeq p.1 (.jstr k))).map Prod.snd

/-- `t.get("StartTime") or t.get("startTime")`. -/
def startRawOf (t : Dict) : JVal :=
  let a := dictGet t "StartTime" .jnull
  if pyTruthy a then a else dictGet t "startTime" .jnull

/-- `convert_to_local_time(start_raw)` on the raw JSON value: `None` is
falsy and yields `""`; a non-empty list or dict reaches the bare
`except`, where `'T' in ...` is a key/element test and a hit makes the
fallback `.split` raise out of the handler (`none`). -/
def timeOfStart (sysOff : Int) : JVal → Option String
  | .jnull => some ""
  | .jstr s => some (convert_to_local_time sysOff s)
  | .jarr l =>
    if l.isEmpty then some ""
    else if l.any (fun x => jbeq x (.jstr "T")) then none else some ""
  | .jobj d =>
    if d.isEmpty then some ""
    else if (d.lookup "T").isSome then none else some ""

/-- Scan `elem.get("Time", [])` lazily for the first entry whose start
matches `start_raw` (`next(..., None)`); `some none` is "no match",
outer `none` a raise on a non-dict entry reached during the scan. -/
def findMatch (startRaw : JVal) : List JVal → Option (Option Dict)
  | [] => some none
  | x :: rest =>
    match x with
    | .jobj d => if jbeq (startRawOf d) startRaw then some (some d) else findMatch startRaw rest
    | _ => none

/-- `val = matched.get("ElementValue")` with the list/dict unwrapping of
lines 102-104; `none` when `val[0]` is not a dict. -/
def extractVal (matched : Dict) (key : String) : Option JVal :=
  match dictGet matched "ElementValue" .jnull with
  | .jarr l =>
    match l with
    | [] => some (.jstr "")
    | v0 :: _ =>
      match v0 with
      | .jobj d => some (dictGet d key (.jstr ""))
      | _ => none
  | .jobj d => some (dictGet d key (.jstr ""))
  | v => some v

/-- Resolve one named element for the current time bucket: `some none`
when the source hits a `continue`, `some (some v)` the value to assign. -/
def resolveElemVal (elements : List (JVal × Dict)) (startRaw : JVal)
    (ename ekey : String) : Option (Option JVal) :=
  match elemsGet elements ename with
  | none => some none
  | some elem =>
    if pyTruthy (.jobj elem) = false then some none
    else do
      let tl ← pyIterList (dictGet elem "Time" (.jarr []))
      let m ← findMatch startRaw tl
      match m with
      | none => some none
      | some matched =>
        if pyTruthy (.jobj matched) = false then some none
        else (extractVal matched ekey).map some

/-- Python `str.isdigit` (restricted to ASCII digits; the non-ASCII
digit classes cannot reach this call site through the CWA payloads). -/
def pyIsdigit (l : List Char) : Bool := !l.isEmpty && l.all Char.isDigit

/-- `val.replace('.', '').replace('-', '')`. -/
def stripDotsDashes (s : String) : List Char :=
  s.data.filter (fun c => !(c = '.') && !(c = '-'))

/-- `float(val)` on the strings that can reach it here (sign, digits,
at most one dot; exponents, `inf`/`nan`, underscores and whitespace are
all rejected by the preceding `isdigit` guard). The value is the exact
rational, abstracting from IEEE rounding; `none` models a raised
`ValueError`. -/
def pyFloatOfString (s : String) : Option ℚ :=
  let signed : ℚ × List Char :=
    match s.data with
    | '-' :: r => (-1, r)
    | '+' :: r => (1, r)
    | r => (1, r)
  let intPart := signed.2.takeWhile Char.isDigit
  let rest := signed.2.dropWhile Char.isDigit
  let intVal : ℚ := intPart.foldl (fun a c => a * 10 + (c.toNat - 48 : Nat)) 0
  match rest with
  | [] => if intPart.isEmpty then none else some (signed.1 * intVal)
  | '.' :: frac =>
    if frac.all Char.isDigit && !(intPart.isEmpty && frac.isEmpty) then
      some (signed.1 * (intVal + mkRat (frac.foldl (fun a c => a * 10 + (c.toNat - 48)) 0) (10 ^ frac.length)))
    else none
  | _ => none

/-- The guarded numeric parse on a string value:
`float(val) if val and val.replace('.','').replace('-','').isdigit() else 0`. -/
def tempNumStr (val : String) : Option ℚ :=
  if val = "" then some 0
  else if pyIsdigit (stripDotsDashes val) then pyFloatOfString val
  else some 0

/-- The same expression on the raw JSON value: a falsy value
short-circuits to `0`, a truthy non-string raises on `.replace`. -/
def tempNumOfJ (val : JVal) : Option ℚ :=
  if pyTruthy val then
    match val with
    | .jstr s => tempNumStr s
    | _ => none
  else some 0

/-- `f"{val} °C" if val else ""`. -/
def tempDisplay (val : JVal) : String :=
  if pyTruthy val then String.mk (pyStrChars val ++ [' ', '°', 'C']) else ""

/-- One forecast row (the dict of lines 88-94: `縣市/鄉鎮`, `時間`,
`天氣現象`, `天氣代碼`, `最高溫`, `最低溫` and the two numeric fields). -/
structure WRow where
  locName : String
  time : String
  weather : JVal
  weatherCode : JVal
  maxTemp : String
  minTemp : String
  maxTempNum : ℚ
  minTempNum : ℚ

/-- `ELEMENT_MAP` iteration order (insertion order of the source dict). -/
def ELEMENT_MAP : List (String × String) :=
  [("最高溫度", "MaxTemperature"), ("最低溫度", "MinTemperature"),
   ("天氣現象", "Weather"), ("天氣代碼", "WeatherCode")]

/-- Build the row for one time bucket `t` of `time_base` (lines 84-117). -/
def buildWRow (sysOff : Int) (elements : List (JVal × Dict)) (t : Dict)
    (locName : String) : Option WRow := do
  let startRaw := startRawOf t
  let start ← timeOfStart sysOff startRaw
  let maxv ← resolveElemVal elements startRaw "最高溫度" "MaxTemperature"
  let minv ← resolveElemVal elements startRaw "最低溫度" "MinTemperature"
  let wv ← resolveElemVal elements startRaw "天氣現象" "Weather"
  let wcv ← resolveElemVal elements startRaw "天氣代碼" "WeatherCode"
  let maxNum ← match maxv with | some v => tempNumOfJ v | none => some 0
  let minNum ← match minv with | some v => tempNumOfJ v | none => some 0
  some ⟨locName, start,
        wv.getD (.jstr ""),
        wcv.getD (.jstr ""),
        (match maxv with | some v => tempDisplay v | none => ""),
        (match minv with | some v => tempDisplay v | none => ""),
        maxNum, minNum⟩

/-- Rows of one location dict: locations without a truthy `天氣現象`
time series are skipped (`continue`); a non-string `LocationName` on an
emitted row raises downstream in `safe_id`/dict keying (`none`). -/
def locRows (sysOff : Int) (loc : Dict) : Option (List WRow) := do
  let welems ← pyIterList (dictGet loc "WeatherElement" (.jarr []))
  let elements ← buildElems welems
  match elemsGet elements "天氣現象" with
  | none => some []
  | some tb =>
    if pyTruthy (.jobj tb) = false then some []
    else if pyTruthy (dictGet tb "Time" .jnull) = false then some []
    else do
      let locName ←
        match dictGet loc "LocationName" (.jstr "未知地點") with
        | .jstr s => some s
        | _ => none
      let tl ← pyIterList (dictGet tb "Time" .jnull)
      tl.mapM
        (fun t => match t with
          | .jobj td => buildWRow sysOff elements td locName
          | _ => none)

/-- All rows of `records.Locations[0].Location` (lines 78-117); each
entry is subscripted as a dict by the source. -/
def parse_rows (sysOff : Int) (locations : List JVal) : Option (List WRow) := do
  let rowss ← locations.mapM
    (fun loc => match loc with | .jobj d => locRows sysOff d | _ => none)
  some rowss.flatten

/-- Ascending comparator on the display time. -/
def rowLe (a b : WRow) : Bool := strLeB a.time b.time

/-- `parse_weather_data` (lines 66-130): rows, grouping by `縣市/鄉鎮`,
`id_map`, and an ascending sort of each group by `時間`. -/
def parse_weather_data (sysOff : Int) (locations : List JVal) :
    Option (List (String × List WRow) × List (String × String)) := do
  let rows ← parse_rows sysOff locations
  some (sortGroups rowLe (groupRows (fun r => r.locName) rows),
        idMapBuild safe_id (fun r => r.locName) rows)

end Weekly

/-! ## Fatal-error control flow of the two `main` functions -/

/-- The shared `try` body: load credentials, fetch, parse, render and
send (rendering is pure and folded into `send`). An `error` is any
fatal exception of §7: configuration, upstream fetch/parse, delivery. -/
def runPipeline {C D P E : Type} (load : Except E C) (fetch : C → Except E D)
    (parse : D → Except E P) (send : P → Except E Unit) : Except E Unit := do
  let c ← load
  let d ← fetch c
  let p ← parse d
  send p

/-- Exit status of `hourly_auto_send.main`: the `except` handler calls
`sys.exit(1)`; a clean run falls through to status 0. -/
def hourlyExitCode {C D P E : Type} (load : Except E C) (fetch : C → Except E D)
    (parse : D → Except E P) (send : P → Except E Unit) : Nat :=
  match runPipeline load fetch parse send with
  | .ok _ => 0
  | .error _ => 1

/-- Exit status of `weekly_auto_send.main`: the `except` handler only
logs and prints, so the process always exits with status 0. -/
def weeklyExitCode {C D P E : Type} (load : Except E C) (fetch : C → Except E D)
    (parse : D → Except E P) (send : P → Except E Unit) : Nat :=
  match runPipeline load fetch parse send with
  | .ok _ => 0
  | .error _ => 0

/-- Whether the report reached the messaging endpoint: only a fully
successful run delivers it. -/
def reportDelivered {C D P E : Type} (load : Except E C) (fetch : C → Except E D)
    (parse : D → Except E P) (send : P → Except E Unit) : Bool :=
  match runPipeline load fetch parse send with
  | .ok _ => true
  | .error _ => false

/-- The non-empty recognised sentinels (the invariant's "never appears
as a field value" can only refer to these: the empty string is itself
the empty marker). -/
def nonEmptySentinels : List String := ["-99", "-99.0", "-999", "NA", "X"]

/-! # Helper lemmas -/

theorem charLe_trans (a : List Char) :
    ∀ b c, charLe a b = true → charLe b c = true → charLe a c = true := by
  induction a with
  | nil => intro b c _ _; simp [charLe]
  | cons x xs ih =>
    intro b c h1 h2
    cases b with
    | nil => simp [charLe] at h1
    | cons y ys =>
      cases c with
      | nil => simp [charLe] at h2
      | cons z zs =>
        simp only [charLe] at h1 h2 ⊢
        split_ifs at h1 h2 ⊢ <;> first
          | rfl
          | omega
          | exact ih ys zs h1 h2

theorem charLe_total (a : List Char) :
    ∀ b, charLe a b = true ∨ charLe b a = true := by
  induction a with
  | nil => intro b; left; simp [charLe]
  | cons x xs ih =>
    intro b
    cases b with
    | nil => right; simp [charLe]
    | cons y ys =>
      simp only [charLe]
      split_ifs <;> first
        | (left; rfl)
        | (right; rfl)
        | exact ih ys

theorem ordInsert_perm {α : Type} (le : α → α → Bool) (a : α) (l : List α) :
    (ordInsert le a l).Perm (a :: l) := by
  induction l with
  | nil => simp [ordInsert]
  | cons b t ih =>
    simp only [ordInsert]
    by_cases h : le a b = true
    · simp [h]
    · simp only [h, if_false]
      exact (ih.cons b).trans (List.Perm.swap a b t)

theorem insSort_perm {α : Type} (le : α → α → Bool) (l : List α) :
    (insSort le l).Perm l := by
  induction l with
  | nil => simp [insSort]
  | cons a t ih => exact (ordInsert_perm le a (insSort le t)).trans (ih.cons a)

theorem mem_ordInsert {α : Type} (le : α → α → Bool) (a : α) (l : List α)
    (x : α) : x ∈ ordInsert le a l ↔ x = a ∨ x ∈ l := by
  rw [(ordInsert_perm le a l).mem_iff]
  simp

theorem ordInsert_pairwise {α : Type} (le : α → α → Bool)
    (hTr : ∀ a b c, le a b = true → le b c = true → le a c = true)
    (hTot : ∀ a b, le a b = true ∨ le b a = true)
    (a : α) (l : List α) (hl : l.Pairwise (fun x y => le x y = true)) :
    (ordInsert le a l).Pairwise (fun x y => le x y = true) := by
  induction l with
  | nil => simp [ordInsert]
  | cons b t ih =>
    rw [List.pairwise_cons] at hl
    obtain ⟨hb, ht⟩ := hl
    simp only [ordInsert]
    by_cases h : le a b = true
    · simp only [h, if_true]
      refine List.Pairwise.cons ?_ (List.Pairwise.cons hb ht)
      intro y hy
      rcases List.mem_cons.mp hy with hEq | hy
      · rw [hEq]; exact h
      · exact hTr a b y h (hb y hy)
    · simp only [h, if_false]
      refine List.Pairwise.cons ?_ (ih ht)
      intro y hy
      rcases (mem_ordInsert le a t y).mp hy with hEq | hy
      · rw [hEq]
        rcases hTot a b with h' | h'
        · exact absurd h' h
        · exact h'
      · exact hb y hy

theorem insSort_pairwise {α : Type} (le : α → α → Bool)
    (hTr : ∀ a b c, le a b = true → le b c = true → le a c = true)
    (hTot : ∀ a b, le a b = true ∨ le b a = true)
    (l : List α) : (insSort le l).Pairwise (fun x y => le x y = true) := by
  induction l with
  | nil => simp [insSort]
  | cons a t ih => exact ordInsert_pairwise le hTr hTot a (insSort le t) ih

theorem addToGroups_fst {α : Type} (k : String) (r : α)
    (acc : List (String × List α)) :
    (addToGroups k r acc).map Prod.fst =
      if k ∈ acc.map Prod.fst then acc.map Prod.fst
      else acc.map Prod.fst ++ [k] := by
  induction acc with
  | nil => simp [addToGroups]
  | cons p rest ih =>
    obtain ⟨q, l⟩ := p
    simp only [addToGroups]
    by_cases h : q = k
    · subst h; simp
    · have h' : ¬(k = q) := fun e => h e.symm
      simp only [h, if_false, List.map_cons, ih, List.mem_cons, h', false_or]
      by_cases hk : k ∈ rest.map Prod.fst
      · simp [hk]
      · simp [hk]

theorem addToGroups_nodup {α : Type} (k : String) (r : α)
    (acc : List (String × List α)) (h : (acc.map Prod.fst).Nodup) :
    ((addToGroups k r acc).map Prod.fst).Nodup := by
  rw [addToGroups_fst]
  by_cases hk : k ∈ acc.map Prod.fst
  · simpa [hk] using h
  · simp only [hk, if_false]
    have hperm : ([k] ++ acc.map Prod.fst).Perm (acc.map Prod.fst ++ [k]) :=
      List.perm_append_comm
    exact hperm.nodup_iff.mp (List.nodup_cons.mpr ⟨hk, h⟩)

theorem addToGroups_members {α : Type} (key : α → String) (k : String) (r : α)
    (acc : List (String × List α)) (hk : key r = k)
    (h : ∀ p ∈ acc, ∀ x ∈ p.2, key x = p.1) :
    ∀ p ∈ addToGroups k r acc, ∀ x ∈ p.2, key x = p.1 := by
  induction acc with
  | nil =>
    intro p hp x hx
    simp only [addToGroups, List.mem_singleton] at hp
    subst hp
    simp only [List.mem_singleton] at hx
    subst hx
    exact hk
  | cons c rest ih =>
    obtain ⟨q, l⟩ := c
    intro p hp x hx
    simp only [addToGroups] at hp
    by_cases hq : q = k
    · rw [if_pos hq] at hp
      rcases List.mem_cons.mp hp with hpe | hp
      · subst hpe
        rcases List.mem_append.mp hx with hx | hx
        · have := h (q, l) (List.mem_cons_self _ _) x hx
          simpa using this
        · simp only [List.mem_singleton] at hx
          subst hx
          simpa [hq] using hk
      · exact h p (List.mem_cons_of_mem _ hp) x hx
    · rw [if_neg hq] at hp
      rcases List.mem_cons.mp hp with hpe | hp
      · subst hpe
        exact h (q, l) (List.mem_cons_self _ _) x hx
      · exact ih (fun p' hp' => h p' (List.mem_cons_of_mem _ hp')) p hp x hx

theorem addToGroups_flat {α : Type} (k : String) (r : α)
    (acc : List (String × List α)) :
    ((addToGroups k r acc).flatMap Prod.snd).Perm
      (acc.flatMap Prod.snd ++ [r]) := by
  induction acc with
  | nil => simp [addToGroups]
  | cons p rest ih =>
    obtain ⟨q, l⟩ := p
    simp only [addToGroups]
    by_cases h : q = k
    · simp only [h, if_true, List.flatMap_cons, List.append_assoc]
      exact List.Perm.append_left l List.perm_append_comm
    · simp only [h, if_false, List.flatMap_cons, List.append_assoc]
      exact List.Perm.append_left l ih

theorem groupRows_foldl_nodup {α : Type} (key : α → String) (rows : List α) :
    ∀ acc, (acc.map Prod.fst).Nodup →
      ((rows.foldl (fun acc r => addToGroups (key r) r acc) acc).map Prod.fst).Nodup := by
  induction rows with
  | nil => intro acc h; simpa using h
  | cons r rs ih =>
    intro acc h
    exact ih (addToGroups (key r) r acc) (addToGroups_nodup (key r) r acc h)

theorem groupRows_foldl_members {α : Type} (key : α → String) (rows : List α) :
    ∀ acc, (∀ p ∈ acc, ∀ x ∈ p.2, key x = p.1) →
      ∀ p ∈ rows.foldl (fun acc r => addToGroups (key r) r acc) acc,
        ∀ x ∈ p.2, key x = p.1 := by
  induction rows with
  | nil => intro acc h; simpa using h
  | cons r rs ih =>
    intro acc h
    exact ih (addToGroups (key r) r acc)
      (addToGroups_members key (key r) r acc rfl h)

theorem groupRows_foldl_flat {α : Type} (key : α → String) (rows : List α) :
    ∀ acc, ((rows.foldl (fun acc r => addToGroups (key r) r acc) acc).flatMap
        Prod.snd).Perm (acc.flatMap Prod.snd ++ rows) := by
  induction rows with
  | nil => intro acc; simp
  | cons r rs ih =>
    intro acc
    refine (ih (addToGroups (key r) r acc)).trans ?_
    refine ((addToGroups_flat (key r) r acc).append_right rs).trans ?_
    simp [List.append_assoc]

theorem groupRows_nodup {α : Type} (key : α → String) (rows : List α) :
    ((groupRows key rows).map Prod.fst).Nodup :=
  groupRows_foldl_nodup key rows [] (by simp)

theorem groupRows_members {α : Type} (key : α → String) (rows : List α) :
    ∀ p ∈ groupRows key rows, ∀ x ∈ p.2, key x = p.1 :=
  groupRows_foldl_members key rows [] (by simp)

theorem groupRows_flat {α : Type} (key : α → String) (rows : List α) :
    ((groupRows key rows).flatMap Prod.snd).Perm rows := by
  have h := groupRows_foldl_flat key rows []
  simpa using h

theorem sortGroups_fst {α : Type} (le : α → α → Bool)
    (g : List (String × List α)) :
    (sortGroups le g).map Prod.fst = g.map Prod.fst := by
  simp [sortGroups, List.map_map, Function.comp]

theorem sortGroups_flat {α : Type} (le : α → α → Bool)
    (g : List (String × List α)) :
    ((sortGroups le g).flatMap Prod.snd).Perm (g.flatMap Prod.snd) := by
  induction g with
  | nil => simp [sortGroups]
  | cons p rest ih =>
    simp only [sortGroups, List.map_cons, List.flatMap_cons]
    exact (insSort_perm le p.2).append ih

theorem sortGroups_members {α : Type} (key : α → String) (le : α → α → Bool)
    (g : List (String × List α)) (h : ∀ p ∈ g, ∀ x ∈ p.2, key x = p.1) :
    ∀ p ∈ sortGroups le g, ∀ x ∈ p.2, key x = p.1 := by
  intro p hp x hx
  simp only [sortGroups, List.mem_map] at hp
  obtain ⟨q, hq, rfl⟩ := hp
  exact h q hq x ((insSort_perm le q.2).mem_iff.mp hx)

theorem sortGroups_sorted {α : Type} (le : α → α → Bool)
    (hTr : ∀ a b c, le a b = true → le b c = true → le a c = true)
    (hTot : ∀ a b, le a b = true ∨ le b a = true)
    (g : List (String × List α)) :
    ∀ p ∈ sortGroups le g, p.2.Pairwise (fun x y => le x y = true) := by
  intro p hp
  simp only [sortGroups, List.mem_map] at hp
  obtain ⟨q, _, rfl⟩ := hp
  exact insSort_pairwise le hTr hTot q.2

theorem lookup_map_ids (ids : String → String) (fs : List String) (k : String) :
    (fs.map (fun k => (k, ids k))).lookup k =
      if k ∈ fs then some (ids k) else none := by
  induction fs with
  | nil => simp
  | cons a t ih =>
    simp only [List.map_cons, List.lookup, List.mem_cons]
    by_cases h : k = a
    · subst h; simp
    · have hba : (k == a) = false := by simpa using h
      simp only [hba, h, false_or]
      exact ih

theorem idMapBuild_foldl_eq {α : Type} (ids : String → String) (key : α → String)
    (rows : List α) :
    ∀ fs : List String,
      rows.foldl
          (fun m r =>
            if (m.lookup (key r)).isSome then m else m ++ [(key r, ids (key r))])
          (fs.map (fun k => (k, ids k)))
        = ((rows.map key).foldl
            (fun acc k => if k ∈ acc then acc else acc ++ [k]) fs).map
            (fun k => (k, ids k)) := by
  induction rows with
  | nil => intro fs; simp
  | cons r rs ih =>
    intro fs
    simp only [List.foldl_cons, List.map_cons]
    by_cases h : key r ∈ fs
    · rw [lookup_map_ids]
      simp only [h, if_true, Option.isSome_some, if_pos]
      exact ih fs
    · rw [lookup_map_ids]
      simp only [h, if_false, Option.isSome_none, Bool.false_eq_true, if_neg,
        not_false_iff]
      have : (fs.map (fun k => (k, ids k))) ++ [(key r, ids (key r))]
          = (fs ++ [key r]).map (fun k => (k, ids k)) := by simp
      rw [this]
      exact ih (fs ++ [key r])

theorem idMapBuild_eq {α : Type} (ids : String → String) (key : α → String)
    (rows : List α) :
    idMapBuild ids key rows
      = (firstSeen (rows.map key)).map (fun k => (k, ids k)) := by
  have h := idMapBuild_foldl_eq ids key rows []
  simpa [idMapBuild, firstSeen] using h

theorem mem_firstSeen_foldl (ks : List String) (k : String) :
    ∀ acc, (k ∈ ks.foldl (fun acc k => if k ∈ acc then acc else acc ++ [k]) acc
      ↔ k ∈ acc ∨ k ∈ ks) := by
  induction ks with
  | nil => intro acc; simp
  | cons a t ih =>
    intro acc
    simp only [List.foldl_cons, List.mem_cons]
    by_cases h : a ∈ acc
    · rw [if_pos h, ih acc]
      constructor
      · rintro (hk | hk)
        · exact Or.inl hk
        · exact Or.inr (Or.inr hk)
      · rintro (hk | hk | hk)
        · exact Or.inl hk
        · exact Or.inl (hk ▸ h)
        · exact Or.inr hk
    · rw [if_neg h, ih (acc ++ [a])]
      simp [List.mem_append, or_assoc]

theorem mem_firstSeen (ks : List String) (k : String) :
    k ∈ firstSeen ks ↔ k ∈ ks := by
  have h := mem_firstSeen_foldl ks k []
  simpa [firstSeen] using h

theorem idMapBuild_lookup {α : Type} (ids : String → String) (key : α → String)
    (rows : List α) (k : String) (hk : k ∈ rows.map key) :
    (idMapBuild ids key rows).lookup k = some (ids k) := by
  rw [idMapBuild_eq, lookup_map_ids]
  rw [if_pos ((mem_firstSeen (rows.map key) k).mpr hk)]

theorem byteHex_length (b : Nat) : (byteHex b).length = 2 := rfl

theorem flatMap_byteHex_length (l : List Nat) :
    (l.flatMap byteHex).length = 2 * l.length := by
  induction l with
  | nil => simp
  | cons a t ih =>
    simp only [List.flatMap_cons, List.length_append, ih, byteHex_length,
      List.length_cons]
    omega

theorem md5HexChars_length (msg : List Nat) : (md5HexChars msg).length = 32 := by
  unfold md5HexChars
  rw [flatMap_byteHex_length]
  simp [leBytes]

theorem getD_hex_mem (n : Nat) : hexDigitChars.getD n '0' ∈ hexDigitChars := by
  rcases Nat.lt_or_ge n 16 with h | h
  · interval_cases n <;> decide
  · rw [List.getD_eq_default]
    · decide
    · simpa [hexDigitChars] using h

theorem md5HexChars_mem (msg : List Nat) :
    ∀ c ∈ md5HexChars msg, c ∈ hexDigitChars := by
  intro c hc
  unfold md5HexChars at hc
  rw [List.mem_flatMap] at hc
  obtain ⟨b, _, hb⟩ := hc
  simp only [byteHex, List.mem_cons, List.mem_singleton] at hb
  rcases hb with rfl | rfl | h
  · exact getD_hex_mem _
  · exact getD_hex_mem _
  · exact absurd h (by simp)

theorem inStrs_iff (s : String) (l : List String) : inStrs s l = true ↔ s ∈ l := by
  simp [inStrs, List.any_eq_true]

theorem sentinel_facts :
    ∀ t ∈ nonEmptySentinels,
      ¬("" = t) ∧ ¬("None" = t) ∧ ¬("雨跡" = t)
        ∧ ¬(t.data.head? = some lbraceChar) ∧ ¬(t.data.head? = some lbrackChar)
        ∧ t ∈ Hourly.coreSentinels ∧ t ∈ Hourly.precipSentinels := by
  decide

theorem pyStr_jarr_head (l : List JVal) (t : String) (h : pyStr (.jarr l) = t) :
    t.data.head? = some lbrackChar := by
  rw [← h]
  simp [pyStr, pyStrChars, reprChars]

theorem pyStr_jobj_head (l : List (String × JVal)) (t : String)
    (h : pyStr (.jobj l) = t) : t.data.head? = some lbraceChar := by
  rw [← h]
  simp [pyStr, pyStrChars, reprChars]

theorem pyStr_ne_core (v : JVal) (hs : Hourly.isSentinelCore v = false)
    (t : String) (ht : t ∈ nonEmptySentinels) : ¬(pyStr v = t) := by
  obtain ⟨_, hn, _, hbrace, hbrack, hcore, _⟩ := sentinel_facts t ht
  cases v with
  | jnull =>
    intro h
    rw [show pyStr JVal.jnull = "None" from rfl] at h
    exact hn h
  | jstr s =>
    intro h
    rw [show pyStr (JVal.jstr s) = s from rfl] at h
    simp only [Hourly.isSentinelCore] at hs
    rw [h] at hs
    rw [(inStrs_iff t Hourly.coreSentinels).mpr hcore] at hs
    exact Bool.true_eq_false.mp hs
  | jarr l => exact fun h => hbrack (pyStr_jarr_head l t h)
  | jobj l => exact fun h => hbrace (pyStr_jobj_head l t h)

theorem pyStr_ne_precip (v : JVal) (hs : Hourly.isSentinelPrecip v = false)
    (t : String) (ht : t ∈ nonEmptySentinels) : ¬(pyStr v = t) := by
  obtain ⟨_, hn, _, hbrace, hbrack, _, hprecip⟩ := sentinel_facts t ht
  cases v with
  | jnull =>
    intro h
    rw [show pyStr JVal.jnull = "None" from rfl] at h
    exact hn h
  | jstr s =>
    intro h
    rw [show pyStr (JVal.jstr s) = s from rfl] at h
    simp only [Hourly.isSentinelPrecip] at hs
    rw [h] at hs
    rw [(inStrs_iff t Hourly.precipSentinels).mpr hprecip] at hs
    exact Bool.true_eq_false.mp hs
  | jarr l => exact fun h => hbrack (pyStr_jarr_head l t h)
  | jobj l => exact fun h => hbrace (pyStr_jobj_head l t h)

theorem sentinel_filter_ne (v : JVal) (t : String) (ht : t ∈ nonEmptySentinels) :
    ¬((if Hourly.isSentinelCore v then "" else pyStr v) = t) := by
  by_cases hs : Hourly.isSentinelCore v = true
  · rw [if_pos hs]
    exact fun h => (sentinel_facts t ht).1 h
  · rw [if_neg hs]
    exact pyStr_ne_core v (by simpa using hs) t ht

theorem get_value_ne (el : Dict) (k t : String) (ht : t ∈ nonEmptySentinels) :
    ¬(Hourly.get_value el k = t) := by
  unfold Hourly.get_value
  exact sentinel_filter_ne _ t ht

theorem gustNested_ne (el : Dict) (t : String) (ht : t ∈ nonEmptySentinels) :
    ¬(Hourly.gustNested el = t) := by
  have he := (sentinel_facts t ht).1
  unfold Hourly.gustNested
  split
  · rename_i gi _
    by_cases hc : (pyTruthy (dictGet gi "PeakGustSpeed" (.jstr ""))
        && !Hourly.isSentinelCore (dictGet gi "PeakGustSpeed" (.jstr ""))) = true
    · rw [if_pos hc]
      rw [Bool.and_eq_true, Bool.not_eq_true'] at hc
      exact pyStr_ne_core _ hc.2 t ht
    · rw [if_neg hc]
      exact fun h => he h
  · exact fun h => he h

theorem gust_value_ne (el : Dict) (t : String) (ht : t ∈ nonEmptySentinels) :
    ¬(Hourly.gust_value el = t) := by
  simp only [Hourly.gust_value]
  by_cases h1 : Hourly.gustNested el = ""
  · rw [if_pos h1]
    by_cases h2 : Hourly.get_value el "Gust" = ""
    · rw [if_pos h2]
      exact get_value_ne el "GUST" t ht
    · rw [if_neg h2]
      exact get_value_ne el "Gust" t ht
  · rw [if_neg h1]
    exact gustNested_ne el t ht

theorem rainNested_ne (el : Dict) (t : String) (ht : t ∈ nonEmptySentinels) :
    ¬(Hourly.rainNested el = t) := by
  obtain ⟨he, _, hy, _, _, _, _⟩ := sentinel_facts t ht
  unfold Hourly.rainNested
  split
  · rename_i nowd _
    by_cases hc : (pyTruthy (dictGet nowd "Precipitation" (.jstr ""))
        && !Hourly.isSentinelPrecip (dictGet nowd "Precipitation" (.jstr ""))) = true
    · rw [if_pos hc]
      rw [Bool.and_eq_true, Bool.not_eq_true'] at hc
      by_cases hT : Hourly.isTStr (dictGet nowd "Precipitation" (.jstr "")) = true
      · rw [if_pos hT]
        exact fun h => hy h
      · rw [if_neg hT]
        exact pyStr_ne_precip _ hc.2 t ht
    · rw [if_neg hc]
      exact fun h => he h
  · exact fun h => he h

theorem rainfall_value_ne (el : Dict) (t : String) (ht : t ∈ nonEmptySentinels) :
    ¬(Hourly.rainfall_value el = t) := by
  obtain ⟨he, _, hy, _, _, _, _⟩ := sentinel_facts t ht
  simp only [Hourly.rainfall_value]
  by_cases h1 : Hourly.rainNested el = ""
  · rw [if_pos h1]
    by_cases h2 : Hourly.get_value el "Precipitation" = ""
    · rw [if_pos h2]
      simp only [if_pos rfl]
      by_cases h3 : Hourly.get_value el "Rainfall" = ""
      · rw [if_pos h3]
        exact get_value_ne el "RAIN" t ht
      · rw [if_neg h3]
        exact get_value_ne el "Rainfall" t ht
    · rw [if_neg h2]
      by_cases hT : Hourly.get_value el "Precipitation" = "T"
      · rw [if_pos hT]
        simp only [show ¬(("雨跡" : String) = "") by decide, if_neg, not_false_iff]
        exact fun h => hy h
      · rw [if_neg hT]
        rw [if_neg h2]
        exact get_value_ne el "Precipitation" t ht
  · rw [if_neg h1]
    exact rainNested_ne el t ht

theorem pyStr_jstr (s : String) : pyStr (.jstr s) = s := rfl

theorem hourlyRowLe_trans (a b c : Hourly.HRow) :
    Hourly.rowLe a b = true → Hourly.rowLe b c = true →
    Hourly.rowLe a c = true := by
  intro h1 h2
  exact charLe_trans c.time.data b.time.data a.time.data h2 h1

theorem hourlyRowLe_total (a b : Hourly.HRow) :
    Hourly.rowLe a b = true ∨ Hourly.rowLe b a = true :=
  charLe_total b.time.data a.time.data

theorem weeklyRowLe_trans (a b c : Weekly.WRow) :
    Weekly.rowLe a b = true → Weekly.rowLe b c = true →
    Weekly.rowLe a c = true := by
  intro h1 h2
  exact charLe_trans a.time.data b.time.data c.time.data h1 h2

theorem weeklyRowLe_total (a b : Weekly.WRow) :
    Weekly.rowLe a b = true ∨ Weekly.rowLe b a = true :=
  charLe_total a.time.data b.time.data

/-! # Claims -/

set_option maxRecDepth 10000

/-- C4: the claim says the forecast variant's numeric parse of max/min
temperatures is lenient and never raises. The guard strips every `'.'`
and `'-'` before `isdigit`, so `"1.2.3"` passes the guard and the
subsequent `float("1.2.3")` raises `ValueError`, aborting the whole
parse — the guard's evident purpose (protecting `float`) makes this a
slip in the code. Non-numeric strings that fail the guard do yield `0`. -/
theorem C4_lenient_parse_raises :
    Weekly.tempNumStr "abc" = some 0
    ∧ Weekly.tempNumStr "" = some 0
    ∧ (Weekly.tempNumStr "18.5").isSome = true
    ∧ Weekly.pyIsdigit (Weekly.stripDotsDashes "1.2.3") = true
    ∧ Weekly.tempNumStr "1.2.3" = none
    ∧ Weekly.parse_rows 28800
        [.jobj
          [("LocationName", .jstr "臺北市"),
           ("WeatherElement", .jarr
             [.jobj [("ElementName", .jstr "天氣現象"),
                     ("Time", .jarr
                       [.jobj [("StartTime", .jstr "x"),
                               ("ElementValue", .jarr [.jobj [("Weather", .jstr "晴")]])]])],
              .jobj [("ElementName", .jstr "最高溫度"),
                     ("Time", .jarr
                       [.jobj [("StartTime", .jstr "x"),
                               ("ElementValue", .jarr
                                 [.jobj [("MaxTemperature", .jstr "1.2.3")]])]])]])]]
        = none := by
  exact ⟨rfl, rfl, rfl, rfl, rfl, rfl⟩

/-- C5 counterexample: a configuration error in the weekly variant is
caught by an `except` handler that only logs and prints — the process
then exits with status 0, not the non-zero status the claim requires
(no report is delivered, as claimed). -/
theorem C5_counterexample :
    weeklyExitCode (Except.error "missing API-KEY.txt" : Except String Unit)
        (fun _ => (Except.ok () : Except String Unit))
        (fun _ => (Except.ok () : Except String Unit))
        (fun _ => (Except.ok () : Except String Unit)) = 0
    ∧ reportDelivered (Except.error "missing API-KEY.txt" : Except String Unit)
        (fun _ => (Except.ok () : Except String Unit))
        (fun _ => (Except.ok () : Except String Unit))
        (fun _ => (Except.ok () : Except String Unit)) = false :=
  ⟨rfl, rfl⟩

/-- C5 amended: on every fatal error the hourly variant exits with
status 1 (`sys.exit(1)` in its handler) and no report is delivered; the
weekly variant also delivers nothing but its handler swallows the
exception, so it terminates with status 0. -/
theorem C5_amended_exit :
    ∀ {C D P E : Type} (load : Except E C) (fetch : C → Except E D)
      (parse : D → Except E P) (send : P → Except E Unit) (e : E),
      runPipeline load fetch parse send = Except.error e →
        hourlyExitCode load fetch parse send = 1
        ∧ weeklyExitCode load fetch parse send = 0
        ∧ reportDelivered load fetch parse send = false := by
  intro C D P E load fetch parse send e h
  unfold hourlyExitCode weeklyExitCode reportDelivered
  rw [h]
  exact ⟨rfl, rfl, rfl⟩

/-- Witness for C5: a concrete failing load stage. -/
theorem C5_amended_exit_witness :
    hourlyExitCode (Except.error "boom" : Except String Unit)
        (fun _ => (Except.ok () : Except String Unit))
        (fun _ => (Except.ok () : Except String Unit))
        (fun _ => (Except.ok () : Except String Unit)) = 1
    ∧ weeklyExitCode (Except.error "boom" : Except String Unit)
        (fun _ => (Except.ok () : Except String Unit))
        (fun _ => (Except.ok () : Except String Unit))
        (fun _ => (Except.ok () : Except String Unit)) = 0
    ∧ reportDelivered (Except.error "boom" : Except String Unit)
        (fun _ => (Except.ok () : Except String Unit))
        (fun _ => (Except.ok () : Except String Unit))
        (fun _ => (Except.ok () : Except String Unit)) = false :=
  C5_amended_exit _ _ _ _ "boom" rfl

/-- C6 counterexample: the weekly `convert_to_local_time` has no
pass-through branch — the non-empty `'T'`-free input `"abc"` fails
parsing and returns `""`, not the input unchanged as the claim states
for both variants. -/
theorem C6_counterexample :
    ¬(("abc" : String) = "")
    ∧ hasChar 'T' "abc".data = false
    ∧ Weekly.convert_to_local_time 28800 "abc" = ""
    ∧ ¬(Weekly.convert_to_local_time 28800 "abc" = "abc") := by
  refine ⟨by decide, by decide, rfl, by decide⟩

/-- C6 amended: only the hourly (observation) variant returns a
non-empty `'T'`-free input unchanged; the weekly (forecast) variant
parses it, and when parsing fails returns the empty string. -/
theorem C6_amended_passthrough :
    (∀ (sysOff : Int) (s : String), ¬(s = "") → hasChar 'T' s.data = false →
        Hourly.convert_to_local_time sysOff s = s)
    ∧ (∀ (sysOff : Int) (s : String), ¬(s = "") → hasChar 'T' s.data = false →
        pyFromIso (pyReplaceZ s.data) = none →
        Weekly.convert_to_local_time sysOff s = "") := by
  constructor
  · intro sysOff s hne hT
    unfold Hourly.convert_to_local_time
    rw [if_neg hne, if_pos hT]
  · intro sysOff s hne hT hp
    unfold Weekly.convert_to_local_time
    rw [if_neg hne]
    simp only [hp]
    rw [if_neg (by simp [hT])]

/-- Witness for C6 amended at the input `"abc"`. -/
theorem C6_amended_passthrough_witness :
    Hourly.convert_to_local_time 28800 "abc" = "abc"
    ∧ Weekly.convert_to_local_time 28800 "abc" = "" :=
  ⟨C6_amended_passthrough.1 28800 "abc" (by decide) (by decide),
   C6_amended_passthrough.2 28800 "abc" (by decide) (by decide) (by decide)⟩

/-- C7 counterexample: on the unparsable input `"2024-01-01Tgarbage"`
both variants return only the first five characters `"garba"` of the
text after the `'T'`, not the full substring `"garbage"` the claim
describes. -/
theorem C7_counterexample :
    pyFromIso (pyReplaceZ "2024-01-01Tgarbage".data) = none
    ∧ hasChar 'T' "2024-01-01Tgarbage".data = true
    ∧ Hourly.convert_to_local_time 28800 "2024-01-01Tgarbage" = "garba"
    ∧ Weekly.convert_to_local_time 28800 "2024-01-01Tgarbage" = "garba"
    ∧ ¬(("garba" : String) = "garbage") := by
  refine ⟨by decide, by decide, rfl, rfl, by decide⟩

/-- C7 amended: the normaliser is total (a total Lean function); on an
input that fails ISO parsing and contains `'T'`, both variants return
the first five characters of the text between the first and second
`'T'` (a best-effort `HH:MM` display); without a `'T'`, the weekly
variant returns `""` while the hourly variant has already returned the
input unchanged. -/
theorem C7_amended_fallback :
    ∀ (sysOff : Int) (s : String), ¬(s = "") →
      pyFromIso (pyReplaceZ s.data) = none →
      (hasChar 'T' s.data = true →
        Hourly.convert_to_local_time sysOff s
            = String.mk ((afterSep 'T' s.data).take 5)
        ∧ Weekly.convert_to_local_time sysOff s
            = String.mk ((afterSep 'T' s.data).take 5))
      ∧ (hasChar 'T' s.data = false →
        Hourly.convert_to_local_time sysOff s = s
        ∧ Weekly.convert_to_local_time sysOff s = "") := by
  intro sysOff s hne hp
  constructor
  · intro hT
    constructor
    · unfold Hourly.convert_to_local_time
      rw [if_neg hne, if_neg (by simp [hT])]
      simp only [hp]
      rw [if_pos hT]
    · unfold Weekly.convert_to_local_time
      rw [if_neg hne]
      simp only [hp]
      rw [if_pos hT]
  · intro hT
    constructor
    · unfold Hourly.convert_to_local_time
      rw [if_neg hne, if_pos hT]
    · unfold Weekly.convert_to_local_time
      rw [if_neg hne]
      simp only [hp]
      rw [if_neg (by simp [hT])]

/-- Witness for C7 amended on a parse failure with and without `'T'`. -/
theorem C7_amended_fallback_witness :
    Hourly.convert_to_local_time 28800 "2024-01-01Tjunk" = "junk"
    ∧ Weekly.convert_to_local_time 28800 "zz" = "" :=
  ⟨((C7_amended_fallback 28800 "2024-01-01Tjunk" (by decide) (by decide)).1
      (by decide)).1,
   ((C7_amended_fallback 28800 "zz" (by decide) (by decide)).2 (by decide)).2⟩

/-- C8: both time normalisers are idempotent on their degraded outputs:
whenever the result is `""` or the unchanged input, feeding it back in
reproduces it. -/
theorem C8_idempotent_degraded :
    (∀ (sysOff : Int) (s : String),
      Hourly.convert_to_local_time sysOff s = ""
        ∨ Hourly.convert_to_local_time sysOff s = s →
      Hourly.convert_to_local_time sysOff (Hourly.convert_to_local_time sysOff s)
        = Hourly.convert_to_local_time sysOff s)
    ∧ (∀ (sysOff : Int) (s : String),
      Weekly.convert_to_local_time sysOff s = ""
        ∨ Weekly.convert_to_local_time sysOff s = s →
      Weekly.convert_to_local_time sysOff (Weekly.convert_to_local_time sysOff s)
        = Weekly.convert_to_local_time sysOff s) := by
  constructor
  · intro sysOff s h
    rcases h with h | h
    · rw [h]
      rfl
    · rw [h]
      exact h
  · intro sysOff s h
    rcases h with h | h
    · rw [h]
      rfl
    · rw [h]
      exact h

/-- Witness for C8 at the empty input. -/
theorem C8_idempotent_degraded_witness :
    Hourly.convert_to_local_time 0 (Hourly.convert_to_local_time 0 "")
        = Hourly.convert_to_local_time 0 ""
    ∧ Weekly.convert_to_local_time 0 (Weekly.convert_to_local_time 0 "")
        = Weekly.convert_to_local_time 0 "" :=
  ⟨C8_idempotent_degraded.1 0 "" (Or.inl rfl),
   C8_idempotent_degraded.2 0 "" (Or.inl rfl)⟩

/-- C2: the gust and precipitation resolvers are deterministic with the
nested path first. When `GustInfo.PeakGustSpeed` (resp.
`Now.Precipitation`) holds a non-sentinel string, that value is emitted
regardless of any flat field (for precipitation, `"T"` surfaces as the
trace marker); and when every path yields sentinel or absent, the field
resolves to the empty marker. -/
theorem C2_resolver_priority :
    (∀ (el gi : Dict) (s : String),
      el.lookup "GustInfo" = some (JVal.jobj gi) →
      dictGet gi "PeakGustSpeed" (.jstr "") = JVal.jstr s →
      inStrs s Hourly.coreSentinels = false →
      Hourly.gust_value el = s)
    ∧ (∀ (el nd : Dict) (s : String),
      el.lookup "Now" = some (JVal.jobj nd) →
      dictGet nd "Precipitation" (.jstr "") = JVal.jstr s →
      inStrs s Hourly.precipSentinels = false →
      Hourly.rainfall_value el = (if s = "T" then "雨跡" else s))
    ∧ (∀ el : Dict, Hourly.gustNested el = "" →
      Hourly.get_value el "Gust" = "" → Hourly.get_value el "GUST" = "" →
      Hourly.gust_value el = "")
    ∧ (∀ el : Dict, Hourly.rainNested el = "" →
      Hourly.get_value el "Precipitation" = "" →
      Hourly.get_value el "Rainfall" = "" → Hourly.get_value el "RAIN" = "" →
      Hourly.rainfall_value el = "") := by
  refine ⟨?_, ?_, ?_, ?_⟩
  · intro el gi s hGI hPG hSent
    have hne : ¬(s = "") := by
      intro h
      rw [h] at hSent
      rw [(inStrs_iff "" Hourly.coreSentinels).mpr (by decide)] at hSent
      exact Bool.true_eq_false.mp hSent
    have hNest : Hourly.gustNested el = s := by
      unfold Hourly.gustNested
      simp only [show dictGet el "GustInfo" .jnull = JVal.jobj gi from by
        simp [dictGet, hGI], hPG]
      rw [if_pos (by simp [pyTruthy, hne, Hourly.isSentinelCore, hSent])]
      exact pyStr_jstr s
    simp only [Hourly.gust_value]
    rw [hNest, if_neg hne]
  · intro el nd s hNow hPrec hSent
    have hne : ¬(s = "") := by
      intro h
      rw [h] at hSent
      rw [(inStrs_iff "" Hourly.precipSentinels).mpr (by decide)] at hSent
      exact Bool.true_eq_false.mp hSent
    have hNest : Hourly.rainNested el = (if s = "T" then "雨跡" else s) := by
      unfold Hourly.rainNested
      simp only [show dictGet el "Now" .jnull = JVal.jobj nd from by
        simp [dictGet, hNow], hPrec]
      rw [if_pos (by simp [pyTruthy, hne, Hourly.isSentinelPrecip, hSent])]
      by_cases hT : s = "T"
      · rw [if_pos (by simp [Hourly.isTStr, hT]), if_pos hT]
      · rw [if_neg (by simp [Hourly.isTStr, hT]), if_neg hT]
        exact pyStr_jstr s
    have hneI : ¬((if s = "T" then "雨跡" else s) = "") := by
      by_cases hT : s = "T"
      · rw [if_pos hT]; decide
      · rw [if_neg hT]; exact hne
    simp only [Hourly.rainfall_value]
    rw [hNest, if_neg hneI]
  · intro el h1 h2 h3
    simp only [Hourly.gust_value]
    rw [if_pos h1, if_pos h2]
    exact h3
  · intro el h1 h2 h3 h4
    simp only [Hourly.rainfall_value]
    rw [if_pos h1, h2]
    rw [if_pos rfl, if_pos rfl, if_pos h3]
    exact h4

/-- Witness for C2: nested paths beating flat fields, and all-sentinel
records resolving to the empty marker. -/
theorem C2_resolver_priority_witness :
    Hourly.gust_value
        [("GustInfo", .jobj [("PeakGustSpeed", .jstr "12.3")]), ("Gust", .jstr "9.9")]
      = "12.3"
    ∧ Hourly.rainfall_value
        [("Now", .jobj [("Precipitation", .jstr "5.0")]), ("Precipitation", .jstr "3.0")]
      = "5.0"
    ∧ Hourly.gust_value [("Gust", .jstr "-99"), ("GUST", .jstr "NA")] = ""
    ∧ Hourly.rainfall_value [("Now", .jstr "x"), ("Rainfall", .jstr "-999")] = "" :=
  ⟨C2_resolver_priority.1 _ _ "12.3" rfl rfl (by decide),
   C2_resolver_priority.2.1 _ _ "5.0" rfl rfl (by decide),
   C2_resolver_priority.2.2.1 _ rfl rfl rfl,
   C2_resolver_priority.2.2.2 _ rfl rfl rfl rfl⟩

/-- C9: `safe_id` is a pure function of the region name (equal names
give equal identifiers, within and across runs), its value is the
dataset tag followed by exactly 8 lowercase hex characters of the MD5
of the name, and `id_map` assigns each region's identifier on its first
encounter in the row sequence (`firstSeen` order), every key mapping to
`safe_id` of the name. -/
theorem C9_region_id_stable :
    (∀ n m : String, n = m →
      Hourly.safe_id n = Hourly.safe_id m ∧ Weekly.safe_id n = Weekly.safe_id m)
    ∧ (∀ n : String,
        Hourly.safe_id n
            = "station-" ++ String.mk ((md5HexChars (utf8Bytes n)).take 8)
        ∧ Weekly.safe_id n
            = "chart-" ++ String.mk ((md5HexChars (utf8Bytes n)).take 8)
        ∧ (String.mk ((md5HexChars (utf8Bytes n)).take 8)).length = 8
        ∧ ∀ c ∈ (md5HexChars (utf8Bytes n)).take 8, c ∈ hexDigitChars)
    ∧ (∀ rows : List Hourly.HRow,
        idMapBuild Hourly.safe_id (fun r => r.countyName) rows
          = (firstSeen (rows.map (fun r => r.countyName))).map
              (fun k => (k, Hourly.safe_id k))
        ∧ ∀ k ∈ rows.map (fun r => r.countyName),
            (idMapBuild Hourly.safe_id (fun r => r.countyName) rows).lookup k
              = some (Hourly.safe_id k))
    ∧ (∀ rows : List Weekly.WRow,
        idMapBuild Weekly.safe_id (fun r => r.locName) rows
          = (firstSeen (rows.map (fun r => r.locName))).map
              (fun k => (k, Weekly.safe_id k))
        ∧ ∀ k ∈ rows.map (fun r => r.locName),
            (idMapBuild Weekly.safe_id (fun r => r.locName) rows).lookup k
              = some (Weekly.safe_id k)) := by
  refine ⟨?_, ?_, ?_, ?_⟩
  · intro n m h
    rw [h]
    exact ⟨rfl, rfl⟩
  · intro n
    refine ⟨rfl, rfl, ?_, ?_⟩
    · show (List.take 8 (md5HexChars (utf8Bytes n))).length = 8
      rw [List.length_take, md5HexChars_length]
      decide
    · intro c hc
      exact md5HexChars_mem _ c (List.mem_of_mem_take hc)
  · intro rows
    exact ⟨idMapBuild_eq _ _ rows, fun k hk => idMapBuild_lookup _ _ rows k hk⟩
  · intro rows
    exact ⟨idMapBuild_eq _ _ rows, fun k hk => idMapBuild_lookup _ _ rows k hk⟩

/-- Witness for C9, with the identifier of a concrete region checked
against its MD5 value end to end. -/
theorem C9_region_id_stable_witness :
    Hourly.safe_id "臺北市" = Hourly.safe_id "臺北市"
    ∧ (idMapBuild Hourly.safe_id (fun r => r.countyName)
          ([⟨.jstr "s", "t", .jnull, "臺北市", "", "", "", "", "", "", "", ""⟩] :
            List Hourly.HRow)).lookup
        "臺北市" = some (Hourly.safe_id "臺北市")
    ∧ Hourly.safe_id "Taipei" = "station-7a4e1add"
    ∧ Weekly.safe_id "Taipei" = "chart-7a4e1add" :=
  ⟨(C9_region_id_stable.1 "臺北市" "臺北市" rfl).1,
   (C9_region_id_stable.2.2.1
      ([⟨.jstr "s", "t", .jnull, "臺北市", "", "", "", "", "", "", "", ""⟩] :
        List Hourly.HRow)).2
     "臺北市" (by decide),
   by decide, by decide⟩

/-- C3: for every row sequence of either variant, grouping partitions
the rows — region keys are distinct, every group member carries the
group's key, and the groups' contents are a permutation of the input —
and each group is ordered by the display-time string, non-increasing
for the observation dataset and non-decreasing for the forecast
dataset. -/
theorem C3_grouping_partition_sorted :
    (∀ rows : List Hourly.HRow,
      ((sortGroups Hourly.rowLe (groupRows (fun r => r.countyName) rows)).map
          Prod.fst).Nodup
      ∧ ((sortGroups Hourly.rowLe (groupRows (fun r => r.countyName) rows)).flatMap
          Prod.snd).Perm rows
      ∧ ∀ p ∈ sortGroups Hourly.rowLe (groupRows (fun r => r.countyName) rows),
          (∀ x ∈ p.2, x.countyName = p.1)
          ∧ p.2.Pairwise (fun a b => strLeB b.time a.time = true))
    ∧ (∀ rows : List Weekly.WRow,
      ((sortGroups Weekly.rowLe (groupRows (fun r => r.locName) rows)).map
          Prod.fst).Nodup
      ∧ ((sortGroups Weekly.rowLe (groupRows (fun r => r.locName) rows)).flatMap
          Prod.snd).Perm rows
      ∧ ∀ p ∈ sortGroups Weekly.rowLe (groupRows (fun r => r.locName) rows),
          (∀ x ∈ p.2, x.locName = p.1)
          ∧ p.2.Pairwise (fun a b => strLeB a.time b.time = true)) := by
  constructor
  · intro rows
    refine ⟨?_, ?_, ?_⟩
    · rw [sortGroups_fst]
      exact groupRows_nodup _ rows
    · exact (sortGroups_flat _ _).trans (groupRows_flat _ rows)
    · intro p hp
      exact ⟨sortGroups_members (fun r => r.countyName) _ _
          (groupRows_members _ rows) p hp,
        sortGroups_sorted Hourly.rowLe hourlyRowLe_trans hourlyRowLe_total _ p hp⟩
  · intro rows
    refine ⟨?_, ?_, ?_⟩
    · rw [sortGroups_fst]
      exact groupRows_nodup _ rows
    · exact (sortGroups_flat _ _).trans (groupRows_flat _ rows)
    · intro p hp
      exact ⟨sortGroups_members (fun r => r.locName) _ _
          (groupRows_members _ rows) p hp,
        sortGroups_sorted Weekly.rowLe weeklyRowLe_trans weeklyRowLe_total _ p hp⟩

/-- Witness for C3 on a concrete two-row county, sorted descending. -/
theorem C3_grouping_partition_sorted_witness :
    (∀ x ∈ [(⟨.jstr "s2", "b", .jnull, "A", "", "", "", "", "", "", "", ""⟩ : Hourly.HRow),
            (⟨.jstr "s1", "a", .jnull, "A", "", "", "", "", "", "", "", ""⟩ : Hourly.HRow)],
        x.countyName = "A")
    ∧ List.Pairwise (fun a b => strLeB b.time a.time = true)
        [(⟨.jstr "s2", "b", .jnull, "A", "", "", "", "", "", "", "", ""⟩ : Hourly.HRow),
         (⟨.jstr "s1", "a", .jnull, "A", "", "", "", "", "", "", "", ""⟩ : Hourly.HRow)] :=
  (C3_grouping_partition_sorted.1
      [⟨.jstr "s1", "a", .jnull, "A", "", "", "", "", "", "", "", ""⟩,
       ⟨.jstr "s2", "b", .jnull, "A", "", "", "", "", "", "", "", ""⟩]).2.2
    ("A", [⟨.jstr "s2", "b", .jnull, "A", "", "", "", "", "", "", "", ""⟩,
           ⟨.jstr "s1", "a", .jnull, "A", "", "", "", "", "", "", "", ""⟩])
    (by simp [show sortGroups Hourly.rowLe (groupRows (fun r => r.countyName)
        [(⟨.jstr "s1", "a", .jnull, "A", "", "", "", "", "", "", "", ""⟩ : Hourly.HRow),
         ⟨.jstr "s2", "b", .jnull, "A", "", "", "", "", "", "", "", ""⟩])
      = [("A", [⟨.jstr "s2", "b", .jnull, "A", "", "", "", "", "", "", "", ""⟩,
                ⟨.jstr "s1", "a", .jnull, "A", "", "", "", "", "", "", "", ""⟩])] from rfl])

/-- C1 counterexample: the forecast variant applies no sentinel
filtering — a `天氣現象` element value of `"-99"` is emitted verbatim in
the normalised row's weather field, so the recognised sentinel `"-99"`
does appear as a field value of an emitted row. -/
theorem C1_counterexample :
    (Weekly.parse_rows 28800
        [.jobj
          [("LocationName", .jstr "L"),
           ("WeatherElement", .jarr
             [.jobj [("ElementName", .jstr "天氣現象"),
                     ("Time", .jarr
                       [.jobj [("StartTime", .jstr "x"),
                               ("ElementValue", .jarr
                                 [.jobj [("Weather", .jstr "-99")]])]])]])]]).map
        (fun rows => rows.map (fun r => r.weather))
      = some [JVal.jstr "-99"]
    ∧ "-99" ∈ nonEmptySentinels :=
  ⟨rfl, by decide⟩

/-- C1 amended: in the observation variant, the eight element-derived
fields of every emitted row never equal one of the non-empty sentinels
`-99`, `-99.0`, `-999`, `NA`, `X` (any such value collapses to the
empty marker), and a `Now.Precipitation` value of `"T"` is emitted as
the trace marker `"雨跡"`. (The forecast variant performs no sentinel
filtering, and `"-98"` is recognised only on the `Now.Precipitation`
path, not on the flat `Precipitation`/`Rainfall`/`RAIN` paths.) -/
theorem C1_amended_sentinels :
    (∀ (sysOff : Int) (st : Dict) (row : Hourly.RawRow),
      Hourly.buildRow sysOff st = some row →
      ∀ t ∈ nonEmptySentinels,
        ¬(row.airPressure = t) ∧ ¬(row.airTemperature = t)
        ∧ ¬(row.windDirection = t) ∧ ¬(row.windSpeed = t)
        ∧ ¬(row.gust = t) ∧ ¬(row.rainfall = t)
        ∧ ¬(row.relativeHumidity = t) ∧ ¬(row.weather = t))
    ∧ (∀ el nd : Dict,
        el.lookup "Now" = some (JVal.jobj nd) →
        nd.lookup "Precipitation" = some (JVal.jstr "T") →
        Hourly.rainfall_value el = "雨跡") := by
  constructor
  · intro sysOff st row h t ht
    unfold Hourly.buildRow at h
    split at h
    · split at h
      · split at h
        · split at h
          · rw [Option.some.injEq] at h
            subst h
            exact ⟨get_value_ne _ _ t ht, get_value_ne _ _ t ht,
              get_value_ne _ _ t ht, get_value_ne _ _ t ht,
              gust_value_ne _ t ht, rainfall_value_ne _ t ht,
              get_value_ne _ _ t ht, get_value_ne _ _ t ht⟩
          · exact absurd h (by simp)
        · exact absurd h (by simp)
      · exact absurd h (by simp)
    · exact absurd h (by simp)
  · intro el nd hNow hP
    have hNest : Hourly.rainNested el = "雨跡" := by
      unfold Hourly.rainNested
      simp only [show dictGet el "Now" .jnull = JVal.jobj nd from by
          simp [dictGet, hNow],
        show dictGet nd "Precipitation" (.jstr "") = JVal.jstr "T" from by
          simp [dictGet, hP]]
      rw [if_pos (by decide), if_pos (by decide)]
    simp only [Hourly.rainfall_value]
    rw [hNest, if_neg (by decide)]

/-- Witness for C1 amended: the row built from a station whose
`DateTime` is the empty (falsy) list — the source builds and emits it
with `時間 = "無資料"` — and the trace translation on a concrete
record. -/
theorem C1_amended_sentinels_witness :
    ¬((⟨.jstr "", .jstr "無資料", .jarr [], "未知縣市", "", "", "", "", "", "",
        "", ""⟩ : Hourly.RawRow).gust = "-99")
    ∧ Hourly.rainfall_value [("Now", .jobj [("Precipitation", .jstr "T")])]
        = "雨跡" :=
  ⟨(C1_amended_sentinels.1 0 [("ObsTime", .jobj [("DateTime", .jarr [])])] _
      rfl "-99" (by decide)).2.2.2.2.1,
   C1_amended_sentinels.2 [("Now", .jobj [("Precipitation", .jstr "T")])]
     [("Precipitation", .jstr "T")] rfl rfl⟩

/-- C10: in the observation variant, a station whose normalised display
time is empty gets the literal `"無資料"` as its row time (never the
empty marker), and the region groups are ordered by exactly that time
field, so the literal serves as the lexical sort key. -/
theorem C10_no_data_time :
    (∀ (sysOff : Int) (st : Dict) (row : Hourly.RawRow),
      Hourly.buildRow sysOff st = some row →
      Hourly.localTimeOf sysOff (Hourly.obsDateTimeVal st) = some (JVal.jstr "") →
      row.time = JVal.jstr "無資料" ∧ ¬(row.time = JVal.jstr "")
      ∧ (Hourly.toRow row).map (fun r => r.time) = some "無資料")
    ∧ (∀ rows : List Hourly.HRow,
        ∀ p ∈ sortGroups Hourly.rowLe (groupRows (fun r => r.countyName) rows),
          p.2.Pairwise (fun a b => strLeB b.time a.time = true)) := by
  constructor
  · intro sysOff st row h hT
    unfold Hourly.buildRow at h
    split at h
    · split at h
      · split at h
        · split at h
          · rename_i lt heq
            rw [heq] at hT
            rw [Option.some.injEq] at hT
            subst hT
            rw [Option.some.injEq] at h
            subst h
            refine ⟨rfl, ?_, rfl⟩
            intro hc
            have h2 : JVal.jstr "無資料" = JVal.jstr "" := .trans (by rfl) hc
            have h3 := congrArg pyStr h2
            rw [pyStr_jstr, pyStr_jstr] at h3
            exact absurd h3 (by decide)
          · exact absurd h (by simp)
        · exact absurd h (by simp)
      · exact absurd h (by simp)
    · exact absurd h (by simp)
  · intro rows p hp
    exact sortGroups_sorted Hourly.rowLe hourlyRowLe_trans hourlyRowLe_total _ p hp

/-- Witness for C10 on a station whose `DateTime` is the empty (falsy)
list: the display time is `""` and the emitted row carries `"無資料"`. -/
theorem C10_no_data_time_witness :
    (⟨.jstr "", .jstr "無資料", .jarr [], "未知縣市", "", "", "", "", "", "",
        "", ""⟩ : Hourly.RawRow).time = JVal.jstr "無資料"
    ∧ List.Pairwise (fun a b => strLeB b.time a.time = true)
        [(⟨.jstr "", "無資料", .jstr "", "未知縣市", "", "", "", "", "", "", "",
            ""⟩ : Hourly.HRow)] :=
  ⟨(C10_no_data_time.1 0 [("ObsTime", .jobj [("DateTime", .jarr [])])] _
      rfl rfl).1,
   C10_no_data_time.2
     [⟨.jstr "", "無資料", .jstr "", "未知縣市", "", "", "", "", "", "", "", ""⟩]
     ("未知縣市",
      [⟨.jstr "", "無資料", .jstr "", "未知縣市", "", "", "", "", "", "", "", ""⟩])
     (by simp [show sortGroups Hourly.rowLe (groupRows (fun r => r.countyName)
         [(⟨.jstr "", "無資料", .jstr "", "未知縣市", "", "", "", "", "", "", "",
             ""⟩ : Hourly.HRow)])
       = [("未知縣市",
           [⟨.jstr "", "無資料", .jstr "", "未知縣市", "", "", "", "", "", "", "",
             ""⟩])] from rfl])⟩
